import Mathlib

/-!
Verification development for `scripts/select-cmake-tests.py`
(clion-cmake-formatter repository).

The script scores CMake files by regex match counts, buckets them into
three complexity tiers, stride-samples each bucket, copies the chosen
files under flattened names and writes a README.  Python strings are
embedded as `List Char`, `re.findall` counting as a left-to-right
non-overlapping scanner, dictionaries of metrics as the structure
`FileMetrics`, and the bucket criteria dictionaries as the structure
`Criteria` whose fields carry the `dict.get` default values used by the
code (0 and 999999).
-/

namespace SelectCMakeTests

/-- Claim-independent helper: the set of characters matched by Python's
regex class `\s` (and stripped by `str.strip()`) for `str` patterns. -/
def pySpace (c : Char) : Bool :=
  c == ' ' || c == '\t' || c == '\n' || c == '\r' ||
  c == '\x0b' || c == '\x0c' || c == '\x1c' || c == '\x1d' ||
  c == '\x1e' || c == '\x1f' || c == '\x85' || c == '\xa0' ||
  c == '\u1680' || ('\u2000' ≤ c && c ≤ '\u200a') ||
  c == '\u2028' || c == '\u2029' || c == '\u202f' ||
  c == '\u205f' || c == '\u3000'

/-- Length of the longest prefix of a character list whose characters all
satisfy `p` (the text consumed by a greedy `p*` regex item). -/
def countLeading (p : Char → Bool) : List Char → Nat
  | [] => 0
  | c :: cs => if p c then countLeading p cs + 1 else 0

/-- Non-overlapping match counting, the semantics of `len(re.findall(...))`:
scan left to right, one character per step; `m bol s` returns the length
(≥ 1 for every matcher used here) of a match starting at the head of `s`,
where `bol` says whether that position starts a line (position 0 or
preceded by a newline), as required by `^` under `re.MULTILINE`.  On a
match of length `l` the scanner resumes after the matched text (`skip`
counts the remaining characters of the current match, inside which no new
match is attempted); otherwise it advances one character. -/
def scanAux (m : Bool → List Char → Option Nat) : Nat → Bool → List Char → Nat
  | _, _, [] => 0
  | Nat.succ skip, _, c :: rest => scanAux m skip (c == '\n') rest
  | 0, bol, c :: rest =>
    match m bol (c :: rest) with
    | some l => 1 + scanAux m (l - 1) (c == '\n') rest
    | none => scanAux m 0 (c == '\n') rest

/-- `len(re.findall(pattern, content))` for a pattern whose matches the
matcher `m` recognises: scan the whole text starting at line start. -/
def scanCount (m : Bool → List Char → Option Nat) (cs : List Char) : Nat :=
  scanAux m 0 true cs

/-- Case-insensitive literal match (Python `re.IGNORECASE`, ASCII case):
consumes one content character per pattern character and returns the rest. -/
def matchCaseInsensitive : List Char → List Char → Option (List Char)
  | [], s => some s
  | _ :: _, [] => none
  | w :: ws, c :: cs =>
      if c.toLower == w.toLower then matchCaseInsensitive ws cs else none

/-- Matcher for the regex tail `\s*\(`: maximal run of whitespace followed by
a literal `(`; returns the number of characters consumed.  (Greedy `\s*`
backtracking is irrelevant because `(` is not a whitespace character.) -/
def spacesThenParen : List Char → Option Nat
  | [] => none
  | c :: cs =>
    if c == '(' then some 1
    else if pySpace c then (spacesThenParen cs).map (· + 1)
    else none

/-- Matcher for the feature regexes `function\s*\(`, `macro\s*\(`,
`if\s*\(`, `foreach\s*\(`, `while\s*\(` (all compiled with
`re.IGNORECASE`): keyword `w`, then `\s*\(`. -/
def matchWordParen (w : List Char) (s : List Char) : Option Nat :=
  match matchCaseInsensitive w s with
  | none => none
  | some rest => (spacesThenParen rest).map (fun n => w.length + n)

/-- The regex class `[a-zA-Z_]`. -/
def isIdentStart (c : Char) : Bool :=
  ('a' ≤ c && c ≤ 'z') || ('A' ≤ c && c ≤ 'Z') || c == '_'

/-- The regex class `[a-zA-Z0-9_]`. -/
def isIdentChar (c : Char) : Bool :=
  isIdentStart c || ('0' ≤ c && c ≤ '9')

/-- Matcher for the `commands` regex
`^\s*[a-zA-Z_][a-zA-Z0-9_]*\s*\(` under `re.MULTILINE`: anchored at a line
start, maximal whitespace run, an identifier, maximal whitespace run, `(`.
Each greedy item is followed by a disjoint character class, so greedy
matching is deterministic. -/
def matchCommandAt (bol : Bool) (s : List Char) : Option Nat :=
  if bol then
    let n1 := countLeading pySpace s
    match s.drop n1 with
    | [] => none
    | c :: rest =>
      if isIdentStart c then
        let n2 := countLeading isIdentChar rest
        let rest2 := rest.drop n2
        let n3 := countLeading pySpace rest2
        match rest2.drop n3 with
        | '(' :: _ => some (n1 + 1 + n2 + n3 + 1)
        | _ => none
      else none
  else none

/-- `len(re.findall(kw + suffix, content, re.IGNORECASE))` where the pattern
is a keyword followed by `\s*\(` (no `^` anchor, so `bol` is ignored). -/
def countPattern (w : List Char) (cs : List Char) : Nat :=
  scanCount (fun _ s => matchWordParen w s) cs

/-- Python `str.split(sep)` for one separator character: splitting the
empty string yields one empty chunk. -/
def splitOnChar (sep : Char) : List Char → List (List Char)
  | [] => [[]]
  | c :: cs =>
    if c == sep then [] :: splitOnChar sep cs
    else
      match splitOnChar sep cs with
      | l :: ls => (c :: l) :: ls
      | [] => [[c]]

/-- Python `content.split('\n')`. -/
def splitLines : List Char → List (List Char) := splitOnChar '\n'

/-- The keyword of the `functions` regex. -/
def kwFunction : List Char := "function".toList

/-- The keyword of the `macros` regex. -/
def kwMacro : List Char := "macro".toList

/-- The keyword of the `if_blocks` regex. -/
def kwIf : List Char := "if".toList

/-- The keyword of the `foreach_loops` regex. -/
def kwForeach : List Char := "foreach".toList

/-- The keyword of the `while_loops` regex. -/
def kwWhile : List Char := "while".toList

/-- The metrics dictionary built by `CMakeTestSelector.analyze_file`
(the `multiline_commands` entry, which no later step and no claim reads,
is not carried). -/
structure FileMetrics where
  path : String
  filename : String
  lines : Nat
  non_empty_lines : Nat
  commands : Nat
  comments : Nat
  functions : Nat
  macros : Nat
  if_blocks : Nat
  foreach_loops : Nat
  while_loops : Nat
  complexity : Nat
deriving DecidableEq, Inhabited, Repr

/-- The metrics computed by `analyze_file` for a file at `path` with name
`filename` whose read succeeded with text `cs`, following lines 44-72 of
the script. -/
def analyzeMetrics (path filename : String) (cs : List Char) : FileMetrics :=
  let ls := splitLines cs
  let commands := scanCount matchCommandAt cs
  let functions := countPattern kwFunction cs
  let macros := countPattern kwMacro cs
  let ifBlocks := countPattern kwIf cs
  let foreachLoops := countPattern kwForeach cs
  let whileLoops := countPattern kwWhile cs
  { path := path
    filename := filename
    lines := ls.length
    non_empty_lines := (ls.filter (fun l => l.any (fun c => !pySpace c))).length
    commands := commands
    comments := cs.count '#'
    functions := functions
    macros := macros
    if_blocks := ifBlocks
    foreach_loops := foreachLoops
    while_loops := whileLoops
    complexity := commands + functions * 2 + macros * 2 +
      ifBlocks + foreachLoops + whileLoops }

/-- `CMakeTestSelector.analyze_file`: the file's text is `some cs` when
`filepath.read_text` succeeds and `none` when it raises (the bare `except`
returns `None`). -/
def analyze_file (path filename : String) (content : Option (List Char)) :
    Option FileMetrics :=
  match content with
  | none => none
  | some cs => some (analyzeMetrics path filename cs)

/-- The per-file step of `CMakeTestSelector.find_representative_files`
(lines 94-97): keep the metrics only when `analyze_file` returned some and
`non_empty_lines > 5`. -/
def scoreFile (path filename : String) (content : Option (List Char)) :
    Option FileMetrics :=
  match analyze_file path filename content with
  | some m => if 5 < m.non_empty_lines then some m else none
  | none => none

/-- Stable insertion, descending by `complexity`: `x` goes before the first
element whose complexity is ≤ its own, so earlier-listed files stay first
among ties, as Python's stable `list.sort(..., reverse=True)` guarantees. -/
def insertDesc (x : FileMetrics) : List FileMetrics → List FileMetrics
  | [] => [x]
  | y :: ys =>
    if y.complexity ≤ x.complexity then x :: y :: ys else y :: insertDesc x ys

/-- `analyzed.sort(key=lambda x: x['complexity'], reverse=True)`. -/
def sortByComplexityDesc (l : List FileMetrics) : List FileMetrics :=
  l.foldr insertDesc []

/-- `CMakeTestSelector.find_representative_files`, abstracted over the
scanned files: each is a (path, filename, optional text) triple, in glob
order; unreadable or ≤5-non-empty-line files are dropped, the rest sorted
by complexity descending. -/
def find_representative_files
    (files : List (String × String × Option (List Char))) : List FileMetrics :=
  sortByComplexityDesc
    (files.filterMap (fun pc => scoreFile pc.1 pc.2.1 pc.2.2))

/-- One category dictionary of `select_diverse_set`: absent keys are read
with `criteria.get('min_lines', 0)`, `criteria.get('max_lines', 999999)`,
`criteria.get('min_complexity', 0)`, `criteria.get('max_complexity',
999999)`, so the fields default to those values. -/
structure Criteria where
  min_lines : Nat := 0
  max_lines : Nat := 999999
  min_complexity : Nat := 0
  max_complexity : Nat := 999999
  count : Nat
deriving DecidableEq, Repr

/-- The `simple` category: `{'max_lines': 50, 'max_complexity': 20, 'count': 5}`. -/
def simpleCriteria : Criteria :=
  { max_lines := 50, max_complexity := 20, count := 5 }

/-- The `medium` category: `{'min_lines': 50, 'max_lines': 200,
'min_complexity': 20, 'max_complexity': 100, 'count': 8}`. -/
def mediumCriteria : Criteria :=
  { min_lines := 50, max_lines := 200, min_complexity := 20,
    max_complexity := 100, count := 8 }

/-- The `complex` category: `{'min_lines': 200, 'min_complexity': 100,
'count': 7}`. -/
def complexCriteria : Criteria :=
  { min_lines := 200, min_complexity := 100, count := 7 }

/-- The candidate filter of `select_diverse_set` (lines 121-126): files of
`analyzed` within the category's line and complexity bounds that are not
already in `selected`. -/
def bucketCandidates (analyzed selected : List FileMetrics) (c : Criteria) :
    List FileMetrics :=
  analyzed.filter (fun f =>
    decide (c.min_lines ≤ f.lines) && decide (f.lines ≤ c.max_lines) &&
    decide (c.min_complexity ≤ f.complexity) &&
    decide (f.complexity ≤ c.max_complexity) &&
    !(decide (f ∈ selected)))

/-- Python `range(0, stop, step)` for `step ≥ 1`:
`[0, step, 2*step, ...)` strictly below `stop`. -/
def pyRange (stop step : Nat) : List Nat :=
  (List.range ((stop + step - 1) / step)).map (· * step)

/-- The body of the appending loop of `select_diverse_set` (lines 132-134):
append `candidates[i]` when fewer than `count` files are selected overall.
Indexing is modelled with `candidates[i]?`; every index the loop generates
is in range, so the `none` branch is dead. -/
def pickF (candidates : List FileMetrics) (count : Nat)
    (sel : List FileMetrics) (i : Nat) : List FileMetrics :=
  if sel.length < count then
    match candidates[i]? with
    | some c => sel ++ [c]
    | none => sel
  else sel

/-- The appending loop of `select_diverse_set` (lines 130-136): walk
`range(0, min(len(candidates), target_count * step), step)` with
`step = max(1, len(candidates) // target_count)`, appending while fewer
than `count` files are selected overall. -/
def bucketPick (candidates : List FileMetrics) (target_count count : Nat)
    (selected : List FileMetrics) : List FileMetrics :=
  let step := max 1 (candidates.length / target_count)
  (pyRange (min candidates.length (target_count * step)) step).foldl
    (pickF candidates count) selected

/-- The list of stride-sampled candidates of one bucket, before the global
cap is applied: the candidates at indices `0, step, 2*step, ...` below
`min(len(candidates), target_count * step)`, where
`step = max(1, len(candidates) // target_count)`. -/
def pickList (candidates : List FileMetrics) (target_count : Nat) :
    List FileMetrics :=
  let step := max 1 (candidates.length / target_count)
  (pyRange (min candidates.length (target_count * step)) step).map
    (fun i => (candidates[i]?).getD default)

/-- The files one category iteration of `select_diverse_set` newly appends
to `selected`: its stride-sampled candidates, truncated to the room the
global cap `count` leaves. -/
def bucketNewPicks (analyzed selected : List FileMetrics) (count : Nat)
    (c : Criteria) : List FileMetrics :=
  (pickList (bucketCandidates analyzed selected c) c.count).take
    (count - selected.length)

/-- One iteration of the category loop of `select_diverse_set`
(lines 117-136): filter the candidates against the files selected so far,
then stride-sample them. -/
def selectStep (analyzed : List FileMetrics) (count : Nat)
    (selected : List FileMetrics) (criteria : Criteria) : List FileMetrics :=
  bucketPick (bucketCandidates analyzed selected criteria) criteria.count
    count selected

/-- `CMakeTestSelector.select_diverse_set` (default `count=20`): the three
categories in dictionary order, then `selected[:count]`. -/
def select_diverse_set (analyzed : List FileMetrics) (count : Nat) :
    List FileMetrics :=
  (([simpleCriteria, mediumCriteria, complexCriteria]).foldl
    (selectStep analyzed count) []).take count

/-- The flattened destination filename of `copy_selected_files`
(line 152): `str(rel_path).replace('/', '_').replace('\\', '_')`, where
`rel_path` is the path relative to the scanned root. -/
def dest_name (rel_path : List Char) : List Char :=
  (rel_path.map (fun c => if c == '/' then '_' else c)).map
    (fun c => if c == '\\' then '_' else c)

/-- Python `Path(p).name`: the last nonempty component of the
`'/'`-separated path, or the empty string if there is none. -/
def pathName (p : String) : String :=
  ⟨((splitOnChar '/' p.data).filter (fun s => s ≠ [])).getLastD []⟩

/-- One line of the `## Files` list of the generated README (line 175):
the file's original basename with its line count and complexity. -/
def readmeEntry (f : FileMetrics) : String :=
  "- `" ++ pathName f.path ++ "` (" ++ toString f.lines ++
    " lines, complexity: " ++ toString f.complexity ++ ")"

/-- The `## Files` list of the generated README (lines 175-176), one entry
per selected file in selection order. -/
def readmeEntries (selected : List FileMetrics) : List String :=
  selected.map readmeEntry

/-- The outcome of `main`: an explicit `sys.exit(code)` or normal
completion carrying the selected files (exit code 0). -/
inductive MainOutcome where
  | exitWith (code : Nat)
  | completed (selected : List FileMetrics)
deriving DecidableEq, Repr

/-- The exit code of an outcome: normal completion is exit code 0. -/
def MainOutcome.exitCode : MainOutcome → Nat
  | .exitWith code => code
  | .completed _ => 0

/-- `main` (lines 196-207), abstracted over the scanned files on the
no-exception path: analyze, `sys.exit(1)` when nothing was analyzable,
otherwise select with `count=20` and complete normally. -/
def mainRun (files : List (String × String × Option (List Char))) :
    MainOutcome :=
  let analyzed := find_representative_files files
  if analyzed.isEmpty then .exitWith 1
  else .completed (select_diverse_set analyzed 20)

/-- The selected files of the first category, when `select_diverse_set`
runs with cap 20 on `analyzed` (the `selected` list is empty when the
`simple` iteration filters its candidates). -/
def simplePicks (analyzed : List FileMetrics) : List FileMetrics :=
  bucketNewPicks analyzed [] 20 simpleCriteria

/-- The files the `medium` iteration appends: its candidate filter sees the
`simple` picks as already selected. -/
def mediumPicks (analyzed : List FileMetrics) : List FileMetrics :=
  bucketNewPicks analyzed (simplePicks analyzed) 20 mediumCriteria

/-- The files the `complex` iteration appends: its candidate filter sees
the `simple` and `medium` picks as already selected. -/
def complexPicks (analyzed : List FileMetrics) : List FileMetrics :=
  bucketNewPicks analyzed (simplePicks analyzed ++ mediumPicks analyzed) 20
    complexCriteria

/-! ## Concrete inputs used by individual claims -/

/-- A CMake text whose regex counts are 3 commands, 1 function, 0 macros,
2 if-blocks and 0 loops (the `function(` and `if(` occurrences sit after a
`#`, which the line-anchored commands regex does not match but the
unanchored keyword regexes do). -/
def exC1 : List Char :=
  ("cmd1(a)\ncmd2(b)\ncmd3(c)\n# function(f)\n# if(x)\n# if(y)\n").toList

/-- A CMake text with only 2 non-empty lines. -/
def exC4 : List Char := ("set(A 1)\nset(B 2)\n").toList

/-- A CMake text with 6 non-empty lines, enough to be analyzed. -/
def exC7 : List Char :=
  ("proj(a)\ncmd(b)\ncmd(c)\ncmd(d)\ncmd(e)\ncmd(f)\n").toList

/-- The k-th of a family of distinct candidate metrics with descending
complexity, for exercising the stride sampler. -/
def c2FM (k : Nat) : FileMetrics :=
  { path := "f" ++ toString k, filename := "f" ++ toString k,
    lines := 300, non_empty_lines := 250, commands := 200 - k, comments := 0,
    functions := 0, macros := 0, if_blocks := 0, foreach_loops := 0,
    while_loops := 0, complexity := 200 - k }

/-- A candidate list of length 50 (the bucket of the spec's worked
example). -/
def c2Candidates : List FileMetrics := (List.range 50).map c2FM

/-- A candidate list of length 3, below the target count 5. -/
def c2Small : List FileMetrics := (List.range 3).map c2FM

/-- Metrics with 1000000 lines: within the claimed unbounded complex
bucket, outside the code's `max_lines` default of 999999. -/
def c3Big : FileMetrics :=
  { path := "big.cmake", filename := "big.cmake", lines := 1000000,
    non_empty_lines := 900000, commands := 400000, comments := 0,
    functions := 0, macros := 0, if_blocks := 0, foreach_loops := 0,
    while_loops := 0, complexity := 400000 }

/-- Metrics inside the medium bucket's bounds. -/
def c3Med : FileMetrics :=
  { path := "med.cmake", filename := "med.cmake", lines := 100,
    non_empty_lines := 90, commands := 60, comments := 0, functions := 0,
    macros := 0, if_blocks := 0, foreach_loops := 0, while_loops := 0,
    complexity := 60 }

/-- Metrics inside the simple bucket's bounds. -/
def c6Simple : FileMetrics :=
  { path := "s.cmake", filename := "s.cmake", lines := 10,
    non_empty_lines := 8, commands := 3, comments := 0, functions := 0,
    macros := 0, if_blocks := 0, foreach_loops := 0, while_loops := 0,
    complexity := 3 }

/-- Two selected files in different directories sharing the basename
`CMakeLists.txt` and all metric values. -/
def c10F1 : FileMetrics :=
  { path := "/tmp/cmake-tests/CMake/Tests/A/CMakeLists.txt",
    filename := "CMakeLists.txt", lines := 10, non_empty_lines := 8,
    commands := 5, comments := 0, functions := 0, macros := 0,
    if_blocks := 0, foreach_loops := 0, while_loops := 0, complexity := 5 }

/-- See `c10F1`: same basename and metrics, different directory. -/
def c10F2 : FileMetrics :=
  { path := "/tmp/cmake-tests/CMake/Tests/B/CMakeLists.txt",
    filename := "CMakeLists.txt", lines := 10, non_empty_lines := 8,
    commands := 5, comments := 0, functions := 0, macros := 0,
    if_blocks := 0, foreach_loops := 0, while_loops := 0, complexity := 5 }

/-! ## Helper lemmas -/

theorem pyRange_mem_lt {stop step i : Nat} (hstep : 1 ≤ step)
    (hi : i ∈ pyRange stop step) : i < stop := by
  unfold pyRange at hi
  obtain ⟨k, hk, rfl⟩ := List.mem_map.mp hi
  have hk' : k < (stop + step - 1) / step := List.mem_range.mp hk
  have h2 : (k + 1) * step ≤ stop + step - 1 :=
    (Nat.le_div_iff_mul_le (by omega)).mp hk'
  have h3 : (k + 1) * step = k * step + step := by ring
  omega

theorem pyRange_nodup (stop step : Nat) (hstep : 1 ≤ step) :
    (pyRange stop step).Nodup :=
  List.Nodup.map_on
    (fun x _ y _ hxy => Nat.eq_of_mul_eq_mul_right (by omega) hxy)
    (List.nodup_range _)

theorem pickFold_stall (candidates : List FileMetrics) (count : Nat)
    (idxs : List Nat) (sel : List FileMetrics) (h : count ≤ sel.length) :
    idxs.foldl (pickF candidates count) sel = sel := by
  induction idxs with
  | nil => rfl
  | cons i is ih =>
      rw [List.foldl_cons, pickF, if_neg (by omega)]
      exact ih

theorem pickF_lt {candidates : List FileMetrics} {count : Nat}
    {sel : List FileMetrics} {i : Nat} (hlt : sel.length < count)
    (hi : i < candidates.length) :
    pickF candidates count sel i = sel ++ [(candidates[i]?).getD default] := by
  rw [pickF, if_pos hlt, List.getElem?_eq_getElem hi]
  rfl

theorem pickFold_eq (candidates : List FileMetrics) (count : Nat) :
    ∀ (idxs : List Nat) (sel : List FileMetrics),
      (∀ i ∈ idxs, i < candidates.length) →
      idxs.foldl (pickF candidates count) sel =
        sel ++ (idxs.map (fun i => (candidates[i]?).getD default)).take
          (count - sel.length)
  | [], sel, _ => by simp
  | i :: is, sel, h => by
    have hi : i < candidates.length := h i (List.mem_cons_self i is)
    have his : ∀ j ∈ is, j < candidates.length :=
      fun j hj => h j (List.mem_cons_of_mem i hj)
    rw [List.foldl_cons, List.map_cons]
    by_cases hlt : sel.length < count
    · rw [pickF_lt hlt hi,
        pickFold_eq candidates count is
          (sel ++ [(candidates[i]?).getD default]) his,
        List.length_append, List.length_singleton]
      have hc : count - sel.length = (count - (sel.length + 1)) + 1 := by omega
      rw [hc, List.take_succ_cons, List.append_assoc, List.singleton_append]
    · rw [pickF, if_neg hlt, pickFold_stall candidates count is sel (by omega)]
      have hc : count - sel.length = 0 := by omega
      rw [hc, List.take_zero, List.append_nil]

theorem bucketPick_eq (candidates : List FileMetrics)
    (target_count count : Nat) (selected : List FileMetrics) :
    bucketPick candidates target_count count selected =
      selected ++ (pickList candidates target_count).take
        (count - selected.length) := by
  unfold bucketPick pickList
  rw [pickFold_eq]
  intro i hi
  exact lt_of_lt_of_le (pyRange_mem_lt (le_max_left _ _) hi) (min_le_left _ _)

theorem selectStep_eq (analyzed : List FileMetrics) (count : Nat)
    (selected : List FileMetrics) (c : Criteria) :
    selectStep analyzed count selected c =
      selected ++ bucketNewPicks analyzed selected count c := by
  unfold selectStep bucketNewPicks
  exact bucketPick_eq ..

theorem mem_bucketCandidates {analyzed selected : List FileMetrics}
    {c : Criteria} {f : FileMetrics} :
    f ∈ bucketCandidates analyzed selected c ↔
      f ∈ analyzed ∧ c.min_lines ≤ f.lines ∧ f.lines ≤ c.max_lines ∧
      c.min_complexity ≤ f.complexity ∧ f.complexity ≤ c.max_complexity ∧
      f ∉ selected := by
  unfold bucketCandidates
  rw [List.mem_filter]
  simp [and_assoc]

theorem pickList_subset (candidates : List FileMetrics) (t : Nat) :
    ∀ f ∈ pickList candidates t, f ∈ candidates := by
  intro f hf
  unfold pickList at hf
  obtain ⟨i, hi, rfl⟩ := List.mem_map.mp hf
  have hlt : i < candidates.length :=
    lt_of_lt_of_le (pyRange_mem_lt (le_max_left _ _) hi) (min_le_left _ _)
  rw [List.getElem?_eq_getElem hlt, Option.getD_some]
  exact List.getElem_mem hlt

theorem pickList_nodup (candidates : List FileMetrics) (t : Nat)
    (h : candidates.Nodup) : (pickList candidates t).Nodup := by
  unfold pickList
  refine List.Nodup.map_on ?_ (pyRange_nodup _ _ (le_max_left _ _))
  intro x hx y hy hxy
  have hx' : x < candidates.length :=
    lt_of_lt_of_le (pyRange_mem_lt (le_max_left _ _) hx) (min_le_left _ _)
  have hy' : y < candidates.length :=
    lt_of_lt_of_le (pyRange_mem_lt (le_max_left _ _) hy) (min_le_left _ _)
  rw [List.getElem?_eq_getElem hx', List.getElem?_eq_getElem hy',
    Option.getD_some, Option.getD_some] at hxy
  exact List.Nodup.getElem_inj_iff h |>.mp hxy

theorem bucketNewPicks_subset_candidates
    {analyzed selected : List FileMetrics} {count : Nat} {c : Criteria} :
    ∀ f ∈ bucketNewPicks analyzed selected count c,
      f ∈ bucketCandidates analyzed selected c := by
  intro f hf
  unfold bucketNewPicks at hf
  exact pickList_subset _ _ _ (List.take_subset _ _ hf)

theorem bucketNewPicks_not_mem_selected
    {analyzed selected : List FileMetrics} {count : Nat} {c : Criteria} :
    ∀ f ∈ bucketNewPicks analyzed selected count c, f ∉ selected :=
  fun f hf =>
    (mem_bucketCandidates.mp (bucketNewPicks_subset_candidates f hf)).2.2.2.2.2

theorem map_getD_range (l : List FileMetrics) :
    (List.range l.length).map (fun i => (l[i]?).getD default) = l := by
  induction l with
  | nil => simp
  | cons x xs ih =>
      rw [List.length_cons, List.range_succ_eq_map, List.map_cons,
        List.map_map]
      have h1 : List.map ((fun i => ((x :: xs)[i]?).getD default) ∘ Nat.succ)
          (List.range xs.length) =
            List.map (fun i => (xs[i]?).getD default) (List.range xs.length) := by
        apply List.map_congr_left
        intro a _
        simp [Function.comp, List.getElem?_cons_succ]
      rw [h1, ih]
      simp [List.getElem?_cons_zero]

theorem pickList_of_lt (candidates : List FileMetrics) (t : Nat)
    (h : candidates.length < t) : pickList candidates t = candidates := by
  unfold pickList
  have h0 : candidates.length / t = 0 := Nat.div_eq_of_lt h
  rw [h0]
  simp only [Nat.max_self, Nat.max_eq_left (Nat.zero_le 1), Nat.mul_one]
  rw [Nat.min_eq_left (le_of_lt h)]
  unfold pyRange
  have h1 : (candidates.length + 1 - 1) / 1 = candidates.length := by omega
  rw [h1, List.map_map]
  have h2 : List.map ((fun i => (candidates[i]?).getD default) ∘ (· * 1))
      (List.range candidates.length) =
        List.map (fun i => (candidates[i]?).getD default)
          (List.range candidates.length) := by
    apply List.map_congr_left
    intro a _
    simp [Function.comp]
  rw [h2]
  exact map_getD_range candidates

/-! ## Claims -/

/-- Claim C1: for every analyzed file, the complexity score equals
commands + 2×functions + 2×macros + if-blocks + foreach-loops +
while-loops as counted by the scorer's regexes; in particular a file whose
regex counts are 3 plain commands, 1 function, 0 macros, 2 if-blocks and 0
loops scores 7. -/
theorem C1_complexity_formula :
    (∀ (p fn : String) (cs : List Char),
        (analyzeMetrics p fn cs).complexity =
          (analyzeMetrics p fn cs).commands +
          2 * (analyzeMetrics p fn cs).functions +
          2 * (analyzeMetrics p fn cs).macros +
          (analyzeMetrics p fn cs).if_blocks +
          (analyzeMetrics p fn cs).foreach_loops +
          (analyzeMetrics p fn cs).while_loops) ∧
    (analyze_file "ex.cmake" "ex.cmake" (some exC1)).map
        (fun m => (m.commands, m.functions, m.macros, m.if_blocks,
          m.foreach_loops, m.while_loops, m.complexity)) =
      some (3, 1, 0, 2, 0, 0, 7) := by
  constructor
  · intro p fn cs
    simp only [analyzeMetrics]
    ring
  · rfl

/-- Claim C2: every bucket iteration computes stride = max(1, n // t) and
takes the candidates at indices 0, stride, 2·stride, ... until the bucket
target or the global cap of 20 is reached (`pickList` is the index-0,
stride, 2·stride, ... sample; the cap truncates it); a bucket with fewer
candidates than its target takes all of them; for 50 candidates and target
7 the stride is 7 and the files at indices 0, 7, ..., 42 are taken. -/
theorem C2_stride_sampling :
    (∀ (candidates : List FileMetrics) (target_count : Nat)
        (selected : List FileMetrics),
        bucketPick candidates target_count 20 selected =
          selected ++ (pickList candidates target_count).take
            (20 - selected.length)) ∧
    (∀ (candidates : List FileMetrics) (target_count : Nat)
        (selected : List FileMetrics),
        candidates.length < target_count →
        candidates.length ≤ 20 - selected.length →
        bucketPick candidates target_count 20 selected =
          selected ++ candidates) ∧
    max 1 (c2Candidates.length / 7) = 7 ∧
    bucketPick c2Candidates 7 20 [] =
      ([0, 7, 14, 21, 28, 35, 42].map fun i => (c2Candidates[i]?).getD default) := by
  refine ⟨fun c t s => bucketPick_eq c t 20 s, fun c t s h1 h2 => ?_,
    by decide, by decide⟩
  rw [bucketPick_eq, pickList_of_lt c t h1, List.take_of_length_le h2]

/-- Witness for C2: a bucket of 3 candidates with target 5 takes all 3. -/
theorem C2_stride_sampling_witness :
    bucketPick c2Small 5 20 [] = [] ++ c2Small :=
  C2_stride_sampling.2.1 c2Small 5 [] (by decide) (by decide)

/-- Counterexample to claim C3 as stated: metrics with 1000000 lines and
complexity 400000 satisfy the claimed complex-bucket condition (lines ≥
200, complexity ≥ 100, not selected earlier) yet are not a candidate of
the complex bucket, because the code reads the absent `max_lines` key with
default 999999. -/
theorem C3_counterexample :
    c3Big ∈ [c3Big] ∧ 200 ≤ c3Big.lines ∧ 100 ≤ c3Big.complexity ∧
    c3Big ∉ ([] : List FileMetrics) ∧
    c3Big ∉ bucketCandidates [c3Big] [] complexCriteria := by
  decide

/-- Claim C3 amended: a file is a candidate of a bucket iff it lies in that
bucket's inclusive bounds and was not selected by an earlier bucket, where
the absent bounds are the code's `dict.get` defaults: the complex bucket
caps lines and complexity at 999999 (and the simple bucket's lower bounds
are 0, hence trivial). -/
theorem C3_candidate_iff :
    ∀ (analyzed selected : List FileMetrics) (f : FileMetrics),
      (f ∈ bucketCandidates analyzed selected simpleCriteria ↔
        f ∈ analyzed ∧ f.lines ≤ 50 ∧ f.complexity ≤ 20 ∧ f ∉ selected) ∧
      (f ∈ bucketCandidates analyzed selected mediumCriteria ↔
        f ∈ analyzed ∧ (50 ≤ f.lines ∧ f.lines ≤ 200) ∧
          (20 ≤ f.complexity ∧ f.complexity ≤ 100) ∧ f ∉ selected) ∧
      (f ∈ bucketCandidates analyzed selected complexCriteria ↔
        f ∈ analyzed ∧ (200 ≤ f.lines ∧ f.lines ≤ 999999) ∧
          (100 ≤ f.complexity ∧ f.complexity ≤ 999999) ∧ f ∉ selected) := by
  intro analyzed selected f
  refine ⟨?_, ?_, ?_⟩ <;>
    · rw [mem_bucketCandidates]
      simp [simpleCriteria, mediumCriteria, complexCriteria, and_assoc]

/-- Witness for the amended C3: a 100-line, complexity-60 file is a
candidate of the medium bucket. -/
theorem C3_candidate_iff_witness :
    c3Med ∈ bucketCandidates [c3Med] [] mediumCriteria :=
  ((C3_candidate_iff [c3Med] [] c3Med).2.1).mpr
    ⟨List.mem_singleton_self _, ⟨by decide, by decide⟩,
      ⟨by decide, by decide⟩, by decide⟩

/-- Claim C4: a file that is unreadable or has 5 or fewer non-blank lines
gets no metrics and is excluded from the analyzed set. -/
theorem C4_small_or_unreadable_excluded :
    ∀ (p fn : String) (content : Option (List Char)),
      (content = none ∨
        ∃ cs, content = some cs ∧ (analyzeMetrics p fn cs).non_empty_lines ≤ 5) →
      scoreFile p fn content = none ∧
      ∀ rest, find_representative_files ((p, fn, content) :: rest) =
        find_representative_files rest := by
  intro p fn content h
  have hnone : scoreFile p fn content = none := by
    rcases h with rfl | ⟨cs, rfl, hle⟩
    · rfl
    · have hred : scoreFile p fn (some cs) =
          if 5 < (analyzeMetrics p fn cs).non_empty_lines
          then some (analyzeMetrics p fn cs) else none := rfl
      rw [hred, if_neg (by omega)]
  refine ⟨hnone, fun rest => ?_⟩
  simp only [find_representative_files, List.filterMap_cons, hnone]

/-- Witness for C4: a 2-non-blank-line file and an unreadable file are both
dropped. -/
theorem C4_small_or_unreadable_excluded_witness :
    scoreFile "tiny.cmake" "tiny.cmake" (some exC4) = none ∧
    scoreFile "bad.cmake" "bad.cmake" none = none :=
  ⟨(C4_small_or_unreadable_excluded "tiny.cmake" "tiny.cmake" (some exC4)
      (Or.inr ⟨exC4, rfl, by decide⟩)).1,
    (C4_small_or_unreadable_excluded "bad.cmake" "bad.cmake" none
      (Or.inl rfl)).1⟩

/-- Claim C5: whatever the analyzed set, the selection step returns at most
20 files. -/
theorem C5_selection_capped :
    ∀ analyzed : List FileMetrics,
      (select_diverse_set analyzed 20).length ≤ 20 := by
  intro analyzed
  unfold select_diverse_set
  rw [List.length_take]
  exact min_le_left _ _

/-- Claim C6: bucket assignment is mutually exclusive: a file the simple
iteration picks is never also picked by the medium or complex iteration
(and likewise medium vs complex), and the selection is exactly the
concatenation of the three buckets' picks truncated to the cap. -/
theorem C6_buckets_mutually_exclusive :
    ∀ analyzed : List FileMetrics,
      (∀ f ∈ simplePicks analyzed,
        f ∉ mediumPicks analyzed ∧ f ∉ complexPicks analyzed) ∧
      (∀ f ∈ mediumPicks analyzed, f ∉ complexPicks analyzed) ∧
      select_diverse_set analyzed 20 =
        (simplePicks analyzed ++ mediumPicks analyzed ++
          complexPicks analyzed).take 20 := by
  intro analyzed
  have hm : ∀ f ∈ mediumPicks analyzed, f ∉ simplePicks analyzed :=
    fun f hf => bucketNewPicks_not_mem_selected f hf
  have hc : ∀ f ∈ complexPicks analyzed,
      f ∉ simplePicks analyzed ++ mediumPicks analyzed :=
    fun f hf => bucketNewPicks_not_mem_selected f hf
  refine ⟨?_, ?_, ?_⟩
  · intro f hf
    constructor
    · intro hf2; exact hm f hf2 hf
    · intro hf2; exact hc f hf2 (List.mem_append_left _ hf)
  · intro f hf hf2
    exact hc f hf2 (List.mem_append_right _ hf)
  · show (List.foldl (selectStep analyzed 20) []
        [simpleCriteria, mediumCriteria, complexCriteria]).take 20 = _
    rw [List.foldl_cons, List.foldl_cons, List.foldl_cons, List.foldl_nil,
      selectStep_eq analyzed 20 [] simpleCriteria, List.nil_append,
      selectStep_eq analyzed 20 (bucketNewPicks analyzed [] 20 simpleCriteria)
        mediumCriteria,
      selectStep_eq]
    rfl

/-- Witness for C6: a file picked by the simple iteration is picked by
neither of the other two. -/
theorem C6_buckets_mutually_exclusive_witness :
    c6Simple ∉ mediumPicks [c6Simple] ∧ c6Simple ∉ complexPicks [c6Simple] :=
  (C6_buckets_mutually_exclusive [c6Simple]).1 c6Simple (by decide)

/-- Claim C7: on the no-exception path, the run exits with code 1 exactly
when the analyzed set is empty, and completes with exit code 0 (selecting
with cap 20) when it is not. -/
theorem C7_exit_codes :
    ∀ files : List (String × String × Option (List Char)),
      ((mainRun files).exitCode = 1 ↔ find_representative_files files = []) ∧
      (find_representative_files files ≠ [] →
        mainRun files = MainOutcome.completed
          (select_diverse_set (find_representative_files files) 20) ∧
        (mainRun files).exitCode = 0) := by
  intro files
  by_cases h : find_representative_files files = []
  · constructor
    · simp [mainRun, h, MainOutcome.exitCode]
    · intro hne; exact absurd h hne
  · have hne : (find_representative_files files).isEmpty = false := by
      simpa [List.isEmpty_iff] using h
    constructor
    · simp only [mainRun, hne, MainOutcome.exitCode, Bool.false_eq_true,
        if_false]
      constructor
      · intro h10; exact absurd h10 (by omega)
      · intro h0; exact absurd h0 h
    · intro _
      constructor
      · simp [mainRun, hne]
      · simp [mainRun, hne, MainOutcome.exitCode]

/-- Witness for C7: no files gives exit code 1; one analyzable file gives
exit code 0. -/
theorem C7_exit_codes_witness :
    (mainRun []).exitCode = 1 ∧
    (mainRun [("f.cmake", "f.cmake", some exC7)]).exitCode = 0 :=
  ⟨(C7_exit_codes []).1.mpr rfl,
    ((C7_exit_codes [("f.cmake", "f.cmake", some exC7)]).2 (by decide)).2⟩

/-- Claim C8: a file whose read fails is scored null, skipped, and the
remaining files are scored as if it were absent. -/
theorem C8_read_error_swallowed :
    ∀ (p fn : String) (rest : List (String × String × Option (List Char))),
      analyze_file p fn none = none ∧ scoreFile p fn none = none ∧
      find_representative_files ((p, fn, none) :: rest) =
        find_representative_files rest := by
  intro p fn rest
  exact ⟨rfl, rfl, rfl⟩

/-- Claim C9: the flattened destination filename contains neither `/` nor
`\`. -/
theorem C9_dest_name_no_separator :
    ∀ rel_path : List Char,
      (dest_name rel_path).all (fun c => !(c == '/' || c == '\\')) = true ∧
      List.count '/' (dest_name rel_path) = 0 ∧
      List.count '\\' (dest_name rel_path) = 0 := by
  intro rel
  have hchar : ∀ a : Char,
      (if (if a == '/' then '_' else a) == '\\' then '_'
        else if a == '/' then '_' else a) ≠ '/' ∧
      (if (if a == '/' then '_' else a) == '\\' then '_'
        else if a == '/' then '_' else a) ≠ '\\' := by
    intro a
    by_cases h1 : a = '/'
    · subst h1; exact ⟨by decide, by decide⟩
    · by_cases h2 : a = '\\'
      · subst h2; exact ⟨by decide, by decide⟩
      · simp [h1, h2]
  have hmem : ∀ c ∈ dest_name rel, c ≠ '/' ∧ c ≠ '\\' := by
    intro c hc
    unfold dest_name at hc
    rw [List.map_map] at hc
    obtain ⟨a, _, rfl⟩ := List.mem_map.mp hc
    exact hchar a
  refine ⟨?_, ?_, ?_⟩
  · rw [List.all_eq_true]
    intro c hc
    have := hmem c hc
    simp [this.1, this.2]
  · rw [List.count_eq_zero]
    intro hc
    exact (hmem _ hc).1 rfl
  · rw [List.count_eq_zero]
    intro hc
    exact (hmem _ hc).2 rfl

/-- Claim C10: the README lists one entry per selected file in selection
order, each showing the file's original basename; two selected files in
different directories can therefore show identical entries even though
their flattened destination names differ. -/
theorem C10_readme_lists_basename :
    (∀ selected : List FileMetrics,
        readmeEntries selected = selected.map readmeEntry ∧
        (readmeEntries selected).length = selected.length) ∧
    readmeEntries [c10F1, c10F2] = [readmeEntry c10F1, readmeEntry c10F2] ∧
    readmeEntry c10F1 = "- `CMakeLists.txt` (10 lines, complexity: 5)" ∧
    readmeEntry c10F2 = "- `CMakeLists.txt` (10 lines, complexity: 5)" ∧
    c10F1.path ≠ c10F2.path ∧
    dest_name (("A/CMakeLists.txt").toList) ≠
      dest_name (("B/CMakeLists.txt").toList) := by
  refine ⟨fun selected => ⟨rfl, by simp [readmeEntries]⟩, rfl, ?_, ?_,
    by decide, by decide⟩
  · decide
  · decide

end SelectCMakeTests
